import Mathlib

/-!
Shallow embedding of `src/meiduo_mall/meiduo_mall/apps/users/serializers.py`.

The file models the two subsystems the specification calls the core:

* account creation and verification (`CreateUserSerializer`): field-level
  validation, object-level `validate`, and `create` with password hashing and
  JWT issuance;
* the bounded recent-activity tracker (`AddUserBrowsingHistorySerializer`):
  the `min_value=1` field check, the SKU existence check, and the pipelined
  `lrem` / `lpush` / `ltrim` update of the per-user list;
* the supporting email binding (`EmailSerializer.update`).

Stores are modelled as association lists, machine state is passed explicitly,
and fallible paths return `Except`.  Following Django REST Framework
semantics, field-level validation (`to_internal_value`) runs each writable
field's own checks in declared field order, collecting the failures of all
fields, and the object-level `validate` runs only when no field failed.
`CharField` whitespace trimming is not modelled: inputs are taken as the
strings the fields would yield.
-/

set_option maxHeartbeats 1000000

deriving instance DecidableEq for Except

/-- Test of a character being a decimal digit, modelling the regex class of
digits in the mobile pattern (Python matches Unicode digits; only ASCII
digits are modelled here). -/
def isDigitChar (c : Char) : Bool := c.isDigit

/-- Model of the anchored regex used by `validate_mobile` (line 49): the
string is the character 1, one character between 3 and 9, then exactly nine
digits. -/
def validMobile (m : String) : Bool :=
  match m.toList with
  | c0 :: c1 :: rest =>
      c0 = '1' && ('3' ≤ c1 && c1 ≤ '9') && rest.length = 9 && rest.all isDigitChar
  | _ => false

/-- Kinds of field-level validation failures raised during the field pass of
`CreateUserSerializer`: blank required `CharField` values, the username and
password length bounds from `extra_kwargs` (lines 27-45), the mobile pattern
(`validate_mobile`, lines 47-51) and the terms check (`validate_allow`,
lines 53-57). -/
inductive FieldError where
  | blank
  | usernameLength
  | passwordLength
  | invalidMobileFormat
  | termsNotAccepted
deriving DecidableEq

/-- Input of a registration call: the writable fields of
`CreateUserSerializer` (line 26). -/
structure RegistrationData where
  username : String
  password : String
  password2 : String
  sms_code : String
  mobile : String
  allow : String
deriving DecidableEq

/-- Field pass of the serializer: each writable field's own checks run in
declared field order (username, password, password2, sms_code, mobile,
allow) and every failure is collected, keyed by field name.  A blank value
fails the implicit required/non-blank check of `CharField` before the
field's `validate_<field>` method would run. -/
def fieldErrors (d : RegistrationData) : List (String × FieldError) :=
  (if d.username = "" then [("username", FieldError.blank)]
   else if d.username.length < 5 || 20 < d.username.length then
     [("username", FieldError.usernameLength)]
   else []) ++
  (if d.password = "" then [("password", FieldError.blank)]
   else if d.password.length < 8 || 20 < d.password.length then
     [("password", FieldError.passwordLength)]
   else []) ++
  (if d.password2 = "" then [("password2", FieldError.blank)] else []) ++
  (if d.sms_code = "" then [("sms_code", FieldError.blank)] else []) ++
  (if d.mobile = "" then [("mobile", FieldError.blank)]
   else if validMobile d.mobile then []
   else [("mobile", FieldError.invalidMobileFormat)]) ++
  (if d.allow = "" then [("allow", FieldError.blank)]
   else if d.allow = "true" then []
   else [("allow", FieldError.termsNotAccepted)])

/-- Failure kinds of a registration call: the aggregated field errors, the
password comparison of `validate` (line 61), and the two distinct
verification-code failures (lines 68-71). -/
inductive RegError where
  | fieldFailures (errs : List (String × FieldError))
  | passwordMismatch
  | smsCodeMissingOrExpired
  | smsCodeMismatch
deriving DecidableEq

/-- The `verify_codes` store: keys of the form `sms_<mobile>` mapping to the
stored code string. -/
abbrev VerificationStore := List (String × String)

/-- Object-level `validate` (lines 59-73): first the two passwords are
compared, then the live code for the mobile is read from the `verify_codes`
store; an absent entry and a present-but-different entry raise distinct
errors.  The store is only read, never written, by this method. -/
def validateData (vs : VerificationStore) (d : RegistrationData) :
    Except RegError RegistrationData :=
  if d.password ≠ d.password2 then .error .passwordMismatch
  else
    match vs.lookup ("sms_" ++ d.mobile) with
    | none => .error .smsCodeMissingOrExpired
    | some real_sms_code =>
        if d.sms_code ≠ real_sms_code then .error .smsCodeMismatch
        else .ok d

/-- Whole-serializer validation: the field pass first, aggregating all field
failures; `validate` runs only when no field failed. -/
def runValidation (vs : VerificationStore) (d : RegistrationData) :
    Except RegError RegistrationData :=
  if fieldErrors d = [] then validateData vs d
  else .error (.fieldFailures (fieldErrors d))

/-- A user row as persisted in the durable account store.  `passwordField`
is the stored password column: whatever string the code last wrote there. -/
structure UserRow where
  id : Nat
  username : String
  passwordField : String
  mobile : String
  email : String
  email_active : Bool
deriving DecidableEq

/-- The durable account store: the persisted rows plus the next
auto-increment primary key. -/
structure DB where
  users : List UserRow
  nextId : Nat
deriving DecidableEq

/-- Payload of the issued JWT: the default payload handler carries the
account id and username (line 92). -/
structure JwtPayload where
  user_id : Nat
  username : String
deriving DecidableEq

/-- Default `jwt_payload_handler`: the credential payload is the identity of
the given user row. -/
def jwt_payload_handler (u : UserRow) : JwtPayload := ⟨u.id, u.username⟩

/-- Save of a row (`user.save()`): the row replaces every persisted row with
the same primary key. -/
def saveUser (db : DB) (u : UserRow) : DB :=
  ⟨db.users.map (fun r => if r.id = u.id then u else r), db.nextId⟩

/-- Result of a registration call: the outcome (the created row and its
token payload, or the failure), the final account store, the sequence of
persisted account-store states the call produced, and the final
`verify_codes` store. -/
structure RegisterResult where
  outcome : Except RegError (UserRow × JwtPayload)
  db : DB
  dbTrace : List DB
  vs : VerificationStore
deriving DecidableEq

/-- Registration call: `is_valid` then `save`.  On success, `create`
(lines 75-96) first inserts the row through the model manager with the raw
submitted password in the password column (`super().create`, line 83), then
overwrites that column with the hash and saves again (`set_password` and
`save`, lines 86-87), and finally attaches the JWT for the row's identity
(lines 90-94; the token is returned, not persisted).  The `verify_codes`
store is returned unchanged: no statement of the serializer writes to it. -/
def register (hash : String → String) (vs : VerificationStore) (db : DB)
    (d : RegistrationData) : RegisterResult :=
  match runValidation vs d with
  | .error e => ⟨.error e, db, [], vs⟩
  | .ok vd =>
      let user0 : UserRow := ⟨db.nextId, vd.username, vd.password, vd.mobile, "", false⟩
      let db1 : DB := ⟨db.users ++ [user0], db.nextId + 1⟩
      let user1 : UserRow := { user0 with passwordField := hash vd.password }
      let db2 : DB := saveUser db1 user1
      ⟨.ok (user1, jwt_payload_handler user1), db2, [db1, db2], vs⟩

/-- Field violations reported by a registration call, empty when the call
did not fail with aggregated field errors. -/
def reportedFieldErrors (r : RegisterResult) : List (String × FieldError) :=
  match r.outcome with
  | .error (.fieldFailures es) => es
  | _ => []

/-- Modelled from the spec: `users/constants.py` is not included under src;
the specification fixes the history cap `K`
(`USER_BROWSING_HISTORY_COUNTS_LIMIT`) at its default 5. -/
def USER_BROWSING_HISTORY_COUNTS_LIMIT : Nat := 5

/-- Redis `LREM key 0 value`: remove every occurrence of the value. -/
def lrem (l : List Int) (v : Int) : List Int := l.filter (fun x => x ≠ v)

/-- Redis `LPUSH` of a single value: insert at the head. -/
def lpush (l : List Int) (v : Int) : List Int := v :: l

/-- Redis `LTRIM key 0 stop`: keep the entries at indices 0 through stop. -/
def ltrim (l : List Int) (stop : Nat) : List Int := l.take (stop + 1)

/-- Per-user effect of `AddUserBrowsingHistorySerializer.create`
(lines 217-227): remove existing occurrences, push the new id at the head,
trim to the first `USER_BROWSING_HISTORY_COUNTS_LIMIT` entries. -/
def recordViewOp (l : List Int) (sku_id : Int) : List Int :=
  ltrim (lpush (lrem l sku_id) sku_id) (USER_BROWSING_HISTORY_COUNTS_LIMIT - 1)

/-- The `history` store: per-user browsing lists keyed by user id (the redis
keys `history_<user_id>`). -/
abbrev ActivityStore := List (Nat × List Int)

/-- Read of a user's browsing list; a missing key is the empty list. -/
def getList (s : ActivityStore) (uid : Nat) : List Int := (s.lookup uid).getD []

/-- Write of a user's browsing list: replace the first binding of the key,
or append a new binding. -/
def setList (s : ActivityStore) (uid : Nat) (l : List Int) : ActivityStore :=
  match s with
  | [] => [(uid, l)]
  | (k, v) :: rest => if k = uid then (k, l) :: rest else (k, v) :: setList rest uid l

/-- Failure kinds of a browsing-history call: the `IntegerField`
`min_value=1` violation (line 198) and the missing-SKU failure of
`validate_sku_id` (lines 200-208). -/
inductive HistoryError where
  | minValue
  | skuNotFound
deriving DecidableEq

/-- Result of a browsing-history call: the outcome, the final `history`
store, and whether the SKU existence lookup (`SKU.objects.get`) was
performed. -/
structure HistoryCallResult where
  outcome : Except HistoryError Int
  store : ActivityStore
  catalogQueried : Bool
deriving DecidableEq

/-- Existence check `validate_sku_id` (lines 200-208): `SKU.objects.get`
raises `DoesNotExist` exactly when the id is absent from the catalog of
existing SKU ids, modelled as a list. -/
def validate_sku_id (catalog : List Int) (value : Int) : Except HistoryError Int :=
  if value ∈ catalog then .ok value else .error .skuNotFound

/-- The `create` method (lines 210-227): the pipelined `lrem`, `lpush`,
`ltrim` on the key `history_<user_id>`, executed as one batch. -/
def historyCreate (store : ActivityStore) (uid : Nat) (sku_id : Int) : ActivityStore :=
  setList store uid (recordViewOp (getList store uid) sku_id)

/-- Full browsing-history call: the `IntegerField` runs its own validators
first (`min_value=1`), so values below 1 fail before `validate_sku_id` is
invoked; then the existence lookup; then `create`. -/
def addBrowsingHistory (catalog : List Int) (store : ActivityStore) (uid : Nat)
    (sku_id : Int) : HistoryCallResult :=
  if sku_id < 1 then ⟨.error .minValue, store, false⟩
  else
    match validate_sku_id catalog sku_id with
    | .error e => ⟨.error e, store, true⟩
    | .ok v => ⟨.ok v, historyCreate store uid v, true⟩

/-- A verification-email send task as enqueued by
`send_confirm_email.delay(email, verify_url)` (line 128). -/
structure EmailTask where
  toAddress : String
  verifyUrl : String
deriving DecidableEq

/-- Modelled from the spec: `User.generate_verify_email_url` lives in
`users/models.py`, which is not included under src; per the specification it
produces a verification URL embedding a token identifying exactly this
(account, email) pair. -/
def generate_verify_email_url (u : UserRow) : String :=
  "verify?user_id=" ++ toString u.id ++ "&email=" ++ u.email

/-- Result of an email-binding call: the persisted account store, the
updated instance, and the asynchronous tasks enqueued by the call. -/
structure EmailUpdateResult where
  db : DB
  inst : UserRow
  outbox : List EmailTask
deriving DecidableEq

/-- The `EmailSerializer.update` method (lines 121-130): assign the new
email on the instance, save it, then enqueue the verification-email send as
an asynchronous fire-and-forget task.  The persisted state is computed
before the task is enqueued, and no statement of the method touches the
`email_active` flag. -/
def emailUpdate (db : DB) (u : UserRow) (newEmail : String) : EmailUpdateResult :=
  let u1 : UserRow := { u with email := newEmail }
  let db1 : DB := saveUser db u1
  let url : String := generate_verify_email_url u1
  { db := db1, inst := u1, outbox := [⟨u1.email, url⟩] }

theorem getList_setList (s : ActivityStore) (uid : Nat) (l : List Int) :
    getList (setList s uid l) uid = l := by
  induction s with
  | nil => simp [setList, getList, List.lookup]
  | cons kv rest ih =>
      obtain ⟨k, v⟩ := kv
      by_cases hk : k = uid
      · simp [setList, hk, getList, List.lookup]
      · have hbeq : (uid == k) = false := beq_eq_false_iff_ne.mpr (Ne.symm hk)
        simp only [setList, if_neg hk, getList, List.lookup, hbeq]
        simpa [getList] using ih

theorem runValidation_ok_eq (vs : VerificationStore) (d vd : RegistrationData)
    (h : runValidation vs d = .ok vd) : vd = d := by
  unfold runValidation validateData at h
  split at h
  · split at h
    · exact absurd h (by simp)
    · split at h
      · exact absurd h (by simp)
      · split at h
        · exact absurd h (by simp)
        · simpa using h.symm
  · exact absurd h (by simp)

/-- C1: evaluation at a concrete successful registration.  The register call
succeeds, yet the `verify_codes` store still holds the consumed code
afterwards, and running validation again with the very same code succeeds
again: the claimed deletion-on-success does not happen in the code, leaving
the replay window the specification flags. -/
theorem c1_sms_code_survives_successful_register :
    (register (fun s => "hashed:" ++ s) [("sms_13812345678", "123456")] ⟨[], 1⟩
        ⟨"alice5", "password1", "password1", "123456", "13812345678", "true"⟩).outcome =
      .ok (⟨1, "alice5", "hashed:password1", "13812345678", "", false⟩, ⟨1, "alice5"⟩) ∧
    (register (fun s => "hashed:" ++ s) [("sms_13812345678", "123456")] ⟨[], 1⟩
        ⟨"alice5", "password1", "password1", "123456", "13812345678", "true"⟩).vs =
      [("sms_13812345678", "123456")] ∧
    runValidation [("sms_13812345678", "123456")]
        ⟨"alice5", "password1", "password1", "123456", "13812345678", "true"⟩ =
      .ok ⟨"alice5", "password1", "password1", "123456", "13812345678", "true"⟩ := by
  refine ⟨by decide, by decide, by decide⟩

/-- C7: when the verification-code step is reached (no field errors and the
two passwords agree), an absent stored code for the mobile yields the
missing-or-expired failure, a present-but-different code yields the mismatch
failure, and the two failure kinds are distinct values. -/
theorem c7_verification_code_error_kinds (hash : String → String)
    (vs : VerificationStore) (db : DB) (d : RegistrationData)
    (hf : fieldErrors d = []) (hp : d.password = d.password2) :
    (vs.lookup ("sms_" ++ d.mobile) = none →
      (register hash vs db d).outcome = .error .smsCodeMissingOrExpired) ∧
    (∀ c, vs.lookup ("sms_" ++ d.mobile) = some c → d.sms_code ≠ c →
      (register hash vs db d).outcome = .error .smsCodeMismatch) ∧
    RegError.smsCodeMissingOrExpired ≠ RegError.smsCodeMismatch := by
  refine ⟨?_, ?_, by decide⟩
  · intro h
    simp [register, runValidation, hf, validateData, hp, h]
  · intro c hc hne
    simp [register, runValidation, hf, validateData, hp, hc, hne]

theorem c7_verification_code_error_kinds_witness :
    (register id [] ⟨[], 1⟩
        ⟨"alice5", "password1", "password1", "123456", "13812345678", "true"⟩).outcome =
      .error .smsCodeMissingOrExpired ∧
    (register id [("sms_13812345678", "654321")] ⟨[], 1⟩
        ⟨"alice5", "password1", "password1", "123456", "13812345678", "true"⟩).outcome =
      .error .smsCodeMismatch := by
  constructor
  · exact (c7_verification_code_error_kinds id [] ⟨[], 1⟩
      ⟨"alice5", "password1", "password1", "123456", "13812345678", "true"⟩
      (by decide) rfl).1 (by decide)
  · exact (c7_verification_code_error_kinds id [("sms_13812345678", "654321")] ⟨[], 1⟩
      ⟨"alice5", "password1", "password1", "123456", "13812345678", "true"⟩
      (by decide) rfl).2.1 "654321" (by decide) (by decide)

/-- C10: a sku_id below 1 is rejected by the field's own `min_value`
validator before any catalog lookup or store access: the call reports the
min-value failure, performs no catalog query and leaves the store unchanged;
only values of at least 1 reach the existence check. -/
theorem c10_min_value_checked_before_lookup (catalog : List Int)
    (store : ActivityStore) (uid : Nat) (i : Int) :
    (i < 1 → addBrowsingHistory catalog store uid i =
      ⟨.error .minValue, store, false⟩) ∧
    (¬ i < 1 → (addBrowsingHistory catalog store uid i).catalogQueried = true) := by
  constructor
  · intro h
    simp [addBrowsingHistory, h]
  · intro h
    unfold addBrowsingHistory
    rw [if_neg h]
    unfold validate_sku_id
    split
    · rfl
    · rfl

theorem c10_min_value_checked_before_lookup_witness :
    addBrowsingHistory [3] [(1, [2])] 1 0 = ⟨.error .minValue, [(1, [2])], false⟩ ∧
    (addBrowsingHistory [3] [(1, [2])] 1 3).catalogQueried = true := by
  constructor
  · exact (c10_min_value_checked_before_lookup [3] [(1, [2])] 1 0).1 (by decide)
  · exact (c10_min_value_checked_before_lookup [3] [(1, [2])] 1 3).2 (by decide)


theorem map_save_id (l : List UserRow) (u : UserRow) (n : Nat)
    (hfresh : ∀ r ∈ l, r.id ≠ n) :
    l.map (fun r => if r.id = n then u else r) = l := by
  induction l with
  | nil => rfl
  | cons a as ih =>
      simp only [List.map_cons, if_neg (hfresh a (List.mem_cons_self a as))]
      rw [ih (fun r hr => hfresh r (List.mem_cons_of_mem a hr))]

theorem register_of_error (hash : String → String) (vs : VerificationStore)
    (db : DB) (d : RegistrationData) (e : RegError)
    (h : runValidation vs d = .error e) :
    register hash vs db d = ⟨.error e, db, [], vs⟩ := by
  unfold register
  rw [h]

theorem register_of_ok (hash : String → String) (vs : VerificationStore)
    (db : DB) (d : RegistrationData) (h : runValidation vs d = .ok d) :
    register hash vs db d =
      ⟨.ok (⟨db.nextId, d.username, hash d.password, d.mobile, "", false⟩,
            ⟨db.nextId, d.username⟩),
       saveUser ⟨db.users ++ [⟨db.nextId, d.username, d.password, d.mobile, "", false⟩],
                  db.nextId + 1⟩
                ⟨db.nextId, d.username, hash d.password, d.mobile, "", false⟩,
       [⟨db.users ++ [⟨db.nextId, d.username, d.password, d.mobile, "", false⟩],
          db.nextId + 1⟩,
        saveUser ⟨db.users ++ [⟨db.nextId, d.username, d.password, d.mobile, "", false⟩],
                   db.nextId + 1⟩
                 ⟨db.nextId, d.username, hash d.password, d.mobile, "", false⟩],
       vs⟩ := by
  unfold register
  rw [h]
  rfl

theorem reportedFieldErrors_of_field_failures (hash : String → String)
    (vs : VerificationStore) (db : DB) (d : RegistrationData)
    (h : fieldErrors d ≠ []) :
    reportedFieldErrors (register hash vs db d) = fieldErrors d := by
  rw [register_of_error hash vs db d (.fieldFailures (fieldErrors d))
    (by unfold runValidation; rw [if_neg h])]
  rfl

/-- C2 counterexample: at a concrete valid registration, the first persisted
account-store state of the call holds the submitted password in plaintext.
The serializer inserts the row through the model manager with the raw
password (line 83) and only afterwards overwrites the column with the hash
(lines 86-87), so the persisted password field transiently holds the
plaintext, contradicting never-the-plaintext. -/
theorem c2_plaintext_password_persisted_transiently :
    ((register (fun s => "hashed:" ++ s) [("sms_13812345678", "123456")] ⟨[], 1⟩
        ⟨"alice5", "password1", "password1", "123456", "13812345678", "true"⟩).dbTrace.map
      (fun s => s.users.map UserRow.passwordField)) =
      [["password1"], ["hashed:password1"]] := by decide

/-- C2 amended: whenever a register call succeeds it appends exactly one
account row (given fresh primary keys); that row's persisted password field
at completion is the hash of the submitted password, the plaintext having
been persisted only transiently by the initial insert before being
overwritten; and the returned credential payload is the id and username of
that same row. -/
theorem c2_register_creates_one_hashed_account (hash : String → String)
    (vs : VerificationStore) (db : DB) (d : RegistrationData) (u : UserRow)
    (tok : JwtPayload) (hfresh : ∀ r ∈ db.users, r.id ≠ db.nextId)
    (h : (register hash vs db d).outcome = .ok (u, tok)) :
    (register hash vs db d).db.users = db.users ++ [u] ∧
    u.passwordField = hash d.password ∧
    tok = ⟨u.id, u.username⟩ := by
  cases hv : runValidation vs d with
  | error e =>
      rw [register_of_error hash vs db d e hv] at h
      simp at h
  | ok vd =>
      have hvd : vd = d := runValidation_ok_eq vs d vd hv
      subst vd
      rw [register_of_ok hash vs db d hv] at h
      simp only [Except.ok.injEq, Prod.mk.injEq] at h
      obtain ⟨hu, ht⟩ := h
      subst hu
      subst ht
      refine ⟨?_, rfl, rfl⟩
      rw [register_of_ok hash vs db d hv]
      simp only [saveUser, List.map_append, List.map_cons, List.map_nil]
      rw [map_save_id db.users _ db.nextId hfresh]
      simp

theorem c2_register_creates_one_hashed_account_witness :
    (register (fun s => "hashed:" ++ s) [("sms_13812345678", "123456")] ⟨[], 1⟩
        ⟨"alice5", "password1", "password1", "123456", "13812345678", "true"⟩).db.users =
      [] ++ [⟨1, "alice5", "hashed:password1", "13812345678", "", false⟩] ∧
    UserRow.passwordField ⟨1, "alice5", "hashed:password1", "13812345678", "", false⟩ =
      (fun s => "hashed:" ++ s) "password1" ∧
    (⟨1, "alice5"⟩ : JwtPayload) =
      ⟨UserRow.id ⟨1, "alice5", "hashed:password1", "13812345678", "", false⟩,
       UserRow.username ⟨1, "alice5", "hashed:password1", "13812345678", "", false⟩⟩ :=
  c2_register_creates_one_hashed_account (fun s => "hashed:" ++ s)
    [("sms_13812345678", "123456")] ⟨[], 1⟩
    ⟨"alice5", "password1", "password1", "123456", "13812345678", "true"⟩
    ⟨1, "alice5", "hashed:password1", "13812345678", "", false⟩ ⟨1, "alice5"⟩
    (by simp) (by decide)

/-- C5 counterexample: with terms not accepted and a malformed mobile, the
call reports both field violations together, the mobile-format one included
(and listed first, the mobile field being validated before allow), refuting
fails with the terms-not-accepted failure, not the mobile-format failure. -/
theorem c5_terms_and_mobile_both_reported :
    reportedFieldErrors (register id [] ⟨[], 1⟩
        ⟨"alice5", "password1", "password1", "123456", "abc", "false"⟩) =
      [("mobile", FieldError.invalidMobileFormat),
       ("allow", FieldError.termsNotAccepted)] ∧
    ("mobile", FieldError.invalidMobileFormat) ∈
      reportedFieldErrors (register id [] ⟨[], 1⟩
        ⟨"alice5", "password1", "password1", "123456", "abc", "false"⟩) := by
  exact ⟨by decide, by decide⟩

/-- C5 amended: field-level checks are not fail-fast: every field violation
is collected and reported together, so a malformed non-blank mobile is
always reported (terms accepted or not) and non-blank unaccepted terms are
always reported; the cross-field checks are reached only when no field
failed, and of these the password comparison runs first, so a
password-mismatch failure implies all field checks passed. -/
theorem c5_field_checks_aggregate_then_validate (hash : String → String)
    (vs : VerificationStore) (db : DB) (d : RegistrationData) :
    (validMobile d.mobile = false → d.mobile ≠ "" →
      ("mobile", FieldError.invalidMobileFormat) ∈
        reportedFieldErrors (register hash vs db d)) ∧
    (d.allow ≠ "true" → d.allow ≠ "" →
      ("allow", FieldError.termsNotAccepted) ∈
        reportedFieldErrors (register hash vs db d)) ∧
    ((register hash vs db d).outcome = .error .passwordMismatch →
      fieldErrors d = [] ∧ d.password ≠ d.password2) := by
  refine ⟨?_, ?_, ?_⟩
  · intro h1 h2
    have hm : ("mobile", FieldError.invalidMobileFormat) ∈ fieldErrors d := by
      simp [fieldErrors, h1, h2]
    rw [reportedFieldErrors_of_field_failures hash vs db d (List.ne_nil_of_mem hm)]
    exact hm
  · intro h1 h2
    have hm : ("allow", FieldError.termsNotAccepted) ∈ fieldErrors d := by
      simp [fieldErrors, h1, h2]
    rw [reportedFieldErrors_of_field_failures hash vs db d (List.ne_nil_of_mem hm)]
    exact hm
  · intro h
    by_cases hf : fieldErrors d = []
    · refine ⟨hf, ?_⟩
      by_cases hp : d.password ≠ d.password2
      · exact hp
      · exfalso
        push_neg at hp
        cases hlk : vs.lookup ("sms_" ++ d.mobile) with
        | none =>
            rw [register_of_error hash vs db d .smsCodeMissingOrExpired
              (by simp [runValidation, validateData, hf, hp, hlk])] at h
            simp at h
        | some c =>
            by_cases hs : d.sms_code ≠ c
            · rw [register_of_error hash vs db d .smsCodeMismatch
                (by simp [runValidation, validateData, hf, hp, hlk, hs])] at h
              simp at h
            · push_neg at hs
              rw [register_of_ok hash vs db d
                (by simp [runValidation, validateData, hf, hp, hlk, hs])] at h
              simp at h
    · exfalso
      rw [register_of_error hash vs db d (.fieldFailures (fieldErrors d))
        (by unfold runValidation; rw [if_neg hf])] at h
      simp at h

theorem c5_field_checks_aggregate_then_validate_witness :
    ("mobile", FieldError.invalidMobileFormat) ∈
      reportedFieldErrors (register id [] ⟨[], 1⟩
        ⟨"bob55", "password1", "password1", "123456", "12812345678", "no"⟩) ∧
    ("allow", FieldError.termsNotAccepted) ∈
      reportedFieldErrors (register id [] ⟨[], 1⟩
        ⟨"bob55", "password1", "password1", "123456", "12812345678", "no"⟩) ∧
    (fieldErrors ⟨"bob55", "password1", "password2", "123456", "13812345678", "true"⟩ = [] ∧
      "password1" ≠ "password2") := by
  refine ⟨?_, ?_, ?_⟩
  · exact (c5_field_checks_aggregate_then_validate id [] ⟨[], 1⟩
      ⟨"bob55", "password1", "password1", "123456", "12812345678", "no"⟩).1
      (by decide) (by decide)
  · exact (c5_field_checks_aggregate_then_validate id [] ⟨[], 1⟩
      ⟨"bob55", "password1", "password1", "123456", "12812345678", "no"⟩).2.1
      (by decide) (by decide)
  · exact (c5_field_checks_aggregate_then_validate id [] ⟨[], 1⟩
      ⟨"bob55", "password1", "password2", "123456", "13812345678", "true"⟩).2.2
      (by decide)

/-- C6 counterexample: an input whose passwords differ but whose mobile is
also malformed fails with the aggregated field-error kind, not the
password-mismatch kind, refuting the universally quantified claim (the
account store is still untouched). -/
theorem c6_password_mismatch_masked_by_field_failure :
    (register id [] ⟨[], 1⟩
        ⟨"alice5", "password1", "different1", "123456", "abc", "true"⟩).outcome =
      .error (.fieldFailures [("mobile", FieldError.invalidMobileFormat)]) ∧
    (register id [] ⟨[], 1⟩
        ⟨"alice5", "password1", "different1", "123456", "abc", "true"⟩).outcome ≠
      .error .passwordMismatch ∧
    "password1" ≠ "different1" := by
  refine ⟨by decide, by decide, by decide⟩

/-- C6 amended: whenever the submitted passwords differ the call fails and
no account row is created or persisted (the account store and the trace of
persisted states are untouched); the failure kind is password-mismatch
exactly when the input additionally passes all field-level checks. -/
theorem c6_password_mismatch_no_account (hash : String → String)
    (vs : VerificationStore) (db : DB) (d : RegistrationData)
    (h : d.password ≠ d.password2) :
    (register hash vs db d).db = db ∧ (register hash vs db d).dbTrace = [] ∧
    (fieldErrors d = [] →
      (register hash vs db d).outcome = .error .passwordMismatch) := by
  by_cases hf : fieldErrors d = []
  · have hrv : runValidation vs d = .error .passwordMismatch := by
      unfold runValidation validateData
      rw [if_pos hf, if_pos h]
    rw [register_of_error hash vs db d _ hrv]
    exact ⟨rfl, rfl, fun _ => rfl⟩
  · have hrv : runValidation vs d = .error (.fieldFailures (fieldErrors d)) := by
      unfold runValidation
      rw [if_neg hf]
    rw [register_of_error hash vs db d _ hrv]
    exact ⟨rfl, rfl, fun hf2 => absurd hf2 hf⟩

theorem c6_password_mismatch_no_account_witness :
    (register id [] ⟨[], 1⟩
        ⟨"alice5", "password1", "different1", "123456", "13812345678", "true"⟩).db =
      ⟨[], 1⟩ ∧
    (register id [] ⟨[], 1⟩
        ⟨"alice5", "password1", "different1", "123456", "13812345678", "true"⟩).outcome =
      .error .passwordMismatch := by
  refine ⟨?_, ?_⟩
  · exact (c6_password_mismatch_no_account id [] ⟨[], 1⟩
      ⟨"alice5", "password1", "different1", "123456", "13812345678", "true"⟩
      (by decide)).1
  · exact (c6_password_mismatch_no_account id [] ⟨[], 1⟩
      ⟨"alice5", "password1", "different1", "123456", "13812345678", "true"⟩
      (by decide)).2.2 (by decide)

theorem recordViewOp_eq (l : List Int) (i : Int) :
    recordViewOp l i = i :: ((l.filter (fun x => x ≠ i)).take 4) := rfl

theorem recordViewOp_head (l : List Int) (i : Int) :
    (recordViewOp l i).head? = some i := rfl

theorem not_mem_take_filter_ne (l : List Int) (i : Int) (n : Nat) :
    i ∉ (l.filter (fun x => x ≠ i)).take n := by
  intro hmem
  have hmem2 := List.take_subset n _ hmem
  have hp := List.of_mem_filter hmem2
  simp at hp

theorem recordViewOp_count (l : List Int) (i : Int) :
    (recordViewOp l i).count i = 1 := by
  rw [recordViewOp_eq, List.count_cons_self,
    List.count_eq_zero.mpr (not_mem_take_filter_ne l i 4)]

theorem recordViewOp_length (l : List Int) (i : Int) :
    (recordViewOp l i).length ≤ USER_BROWSING_HISTORY_COUNTS_LIMIT := by
  rw [recordViewOp_eq]
  simp only [List.length_cons, List.length_take, USER_BROWSING_HISTORY_COUNTS_LIMIT]
  omega

theorem recordViewOp_nodup (l : List Int) (i : Int) (h : l.Nodup) :
    (recordViewOp l i).Nodup := by
  rw [recordViewOp_eq]
  exact List.nodup_cons.mpr ⟨not_mem_take_filter_ne l i 4,
    ((h.filter _).sublist (List.take_sublist _ _))⟩

theorem foldl_recordViewOp_nodup_len (ids : List Int) (l : List Int)
    (hn : l.Nodup) (hl : l.length ≤ USER_BROWSING_HISTORY_COUNTS_LIMIT) :
    (ids.foldl recordViewOp l).Nodup ∧
    (ids.foldl recordViewOp l).length ≤ USER_BROWSING_HISTORY_COUNTS_LIMIT := by
  induction ids generalizing l with
  | nil => exact ⟨hn, hl⟩
  | cons a as ih =>
      simp only [List.foldl_cons]
      exact ih (recordViewOp l a) (recordViewOp_nodup l a hn) (recordViewOp_length l a)

theorem foldl_recordViewOp_distinct (ids : List Int) (h : ids.Nodup) :
    ids.foldl recordViewOp [] =
      ids.reverse.take USER_BROWSING_HISTORY_COUNTS_LIMIT := by
  induction ids using List.reverseRecOn with
  | nil => rfl
  | append_singleton ys y ih =>
      have hys : ys.Nodup := h.of_append_left
      have hy : y ∉ ys := by
        intro hmem
        exact List.disjoint_of_nodup_append h hmem (List.mem_singleton_self y)
      rw [List.foldl_append]
      simp only [List.foldl_cons, List.foldl_nil]
      rw [ih hys, recordViewOp_eq]
      have hfilter : (ys.reverse.take USER_BROWSING_HISTORY_COUNTS_LIMIT).filter
          (fun x => x ≠ y) = ys.reverse.take USER_BROWSING_HISTORY_COUNTS_LIMIT := by
        rw [List.filter_eq_self]
        intro a ha
        have hays : a ∈ ys := List.mem_reverse.mp (List.take_subset _ _ ha)
        simp only [ne_eq, decide_eq_true_eq]
        intro hay
        exact hy (hay ▸ hays)
      rw [hfilter, List.reverse_append]
      simp only [List.reverse_cons, List.reverse_nil, List.nil_append,
        List.singleton_append, List.take_take, USER_BROWSING_HISTORY_COUNTS_LIMIT]
      norm_num [List.take_succ_cons]

theorem getList_foldl_historyCreate (uid : Nat) (ids : List Int) (s : ActivityStore) :
    getList (ids.foldl (fun st i => historyCreate st uid i) s) uid =
      ids.foldl recordViewOp (getList s uid) := by
  induction ids generalizing s with
  | nil => rfl
  | cons a as ih =>
      simp only [List.foldl_cons]
      rw [ih (historyCreate s uid a)]
      unfold historyCreate
      rw [getList_setList]

/-- C3: for every prior store state, after a successful recordView the
user's list contains the item exactly once and at the head: the pipelined
lrem removes every existing occurrence, lpush reinserts it at the head, and
the trim keeps the head. -/
theorem c3_record_view_dedup_head (catalog : List Int) (store : ActivityStore)
    (uid : Nat) (i : Int) (h1 : ¬ i < 1) (h2 : i ∈ catalog) :
    (addBrowsingHistory catalog store uid i).outcome = .ok i ∧
    (getList (addBrowsingHistory catalog store uid i).store uid).head? = some i ∧
    (getList (addBrowsingHistory catalog store uid i).store uid).count i = 1 := by
  have hcall : addBrowsingHistory catalog store uid i =
      ⟨.ok i, historyCreate store uid i, true⟩ := by
    unfold addBrowsingHistory validate_sku_id
    rw [if_neg h1, if_pos h2]
  rw [hcall]
  refine ⟨rfl, ?_, ?_⟩
  · show (getList (historyCreate store uid i) uid).head? = some i
    unfold historyCreate
    rw [getList_setList]
    exact recordViewOp_head _ _
  · show (getList (historyCreate store uid i) uid).count i = 1
    unfold historyCreate
    rw [getList_setList]
    exact recordViewOp_count _ _

theorem c3_record_view_dedup_head_witness :
    (addBrowsingHistory [7] [(1, [7, 7, 3])] 1 7).outcome = .ok 7 ∧
    (getList (addBrowsingHistory [7] [(1, [7, 7, 3])] 1 7).store 1).head? = some 7 ∧
    (getList (addBrowsingHistory [7] [(1, [7, 7, 3])] 1 7).store 1).count 7 = 1 :=
  c3_record_view_dedup_head [7] [(1, [7, 7, 3])] 1 7 (by decide) (by decide)

/-- C4: starting from an empty store, after any sequence of recordView store
updates for one user the user's list has length at most the cap and no
duplicates; and when the inserted ids are pairwise distinct, the list is
exactly the most recent cap-many ids in most-recent-first order (so after
cap+5 distinct insertions it is exactly the last cap ids). -/
theorem c4_history_bounded_nodup_recent (uid : Nat) (ids : List Int) :
    (getList (ids.foldl (fun st i => historyCreate st uid i) []) uid).length ≤
      USER_BROWSING_HISTORY_COUNTS_LIMIT ∧
    (getList (ids.foldl (fun st i => historyCreate st uid i) []) uid).Nodup ∧
    (ids.Nodup → getList (ids.foldl (fun st i => historyCreate st uid i) []) uid =
      ids.reverse.take USER_BROWSING_HISTORY_COUNTS_LIMIT) := by
  have hproj := getList_foldl_historyCreate uid ids []
  have hgl : getList ([] : ActivityStore) uid = [] := rfl
  rw [hgl] at hproj
  have hinv := foldl_recordViewOp_nodup_len ids [] List.nodup_nil (by
    simp [USER_BROWSING_HISTORY_COUNTS_LIMIT])
  refine ⟨?_, ?_, ?_⟩
  · rw [hproj]; exact hinv.2
  · rw [hproj]; exact hinv.1
  · intro hdistinct
    rw [hproj]
    exact foldl_recordViewOp_distinct ids hdistinct

theorem c4_history_bounded_nodup_recent_witness :
    (getList (([1, 2, 3, 4, 5, 6, 7, 8, 9, 10] : List Int).foldl
        (fun st i => historyCreate st 1 i) []) 1).length ≤
      USER_BROWSING_HISTORY_COUNTS_LIMIT ∧
    ([1, 2, 3, 4, 5, 6, 7, 8, 9, 10] : List Int).Nodup ∧
    getList (([1, 2, 3, 4, 5, 6, 7, 8, 9, 10] : List Int).foldl
        (fun st i => historyCreate st 1 i) []) 1 = [10, 9, 8, 7, 6] := by
  refine ⟨(c4_history_bounded_nodup_recent 1 [1, 2, 3, 4, 5, 6, 7, 8, 9, 10]).1,
    by decide, ?_⟩
  rw [(c4_history_bounded_nodup_recent 1 [1, 2, 3, 4, 5, 6, 7, 8, 9, 10]).2.2 (by decide)]
  decide

/-- C9 counterexample: a sku_id of 0 references no existing catalog item
(the catalog is empty), yet the call fails with the min-value validation
kind, not the not-found kind, refuting the universally quantified claim (the
store is still untouched). -/
theorem c9_zero_sku_fails_min_value_not_notfound :
    addBrowsingHistory [] [(1, [2])] 1 0 =
      ⟨.error .minValue, [(1, [2])], false⟩ ∧
    HistoryError.minValue ≠ HistoryError.skuNotFound := by
  exact ⟨by decide, by decide⟩

/-- C9 amended: a recordView call whose sku_id references no existing
catalog item performs no write (the store is returned unchanged); the
failure kind is not-found when the sku_id is at least 1, and the min-value
validation kind when it is below 1. -/
theorem c9_unknown_item_no_write (catalog : List Int) (store : ActivityStore)
    (uid : Nat) (i : Int) (h : i ∉ catalog) :
    (addBrowsingHistory catalog store uid i).store = store ∧
    (¬ i < 1 → (addBrowsingHistory catalog store uid i).outcome = .error .skuNotFound) ∧
    (i < 1 → (addBrowsingHistory catalog store uid i).outcome = .error .minValue) := by
  by_cases hlt : i < 1
  · have hcall : addBrowsingHistory catalog store uid i =
        ⟨.error .minValue, store, false⟩ := by
      unfold addBrowsingHistory
      rw [if_pos hlt]
    rw [hcall]
    exact ⟨rfl, fun hn => absurd hlt hn, fun _ => rfl⟩
  · have hcall : addBrowsingHistory catalog store uid i =
        ⟨.error .skuNotFound, store, true⟩ := by
      unfold addBrowsingHistory validate_sku_id
      rw [if_neg hlt, if_neg h]
    rw [hcall]
    exact ⟨rfl, fun _ => rfl, fun hl => absurd hl hlt⟩

theorem c9_unknown_item_no_write_witness :
    (addBrowsingHistory [7] [(1, [2])] 1 9).store = [(1, [2])] ∧
    (addBrowsingHistory [7] [(1, [2])] 1 9).outcome = .error .skuNotFound := by
  refine ⟨(c9_unknown_item_no_write [7] [(1, [2])] 1 9 (by decide)).1, ?_⟩
  exact (c9_unknown_item_no_write [7] [(1, [2])] 1 9 (by decide)).2.1 (by decide)

/-- C8 counterexample: binding a new email on an account whose email was
already verified leaves the email-verified flag true, both on the returned
instance and in the persisted row, refuting marks the email-verified flag as
unverified: the method never touches the flag. -/
theorem c8_email_active_not_reset :
    (emailUpdate ⟨[⟨1, "alice5", "h", "13812345678", "old@example.com", true⟩], 2⟩
        ⟨1, "alice5", "h", "13812345678", "old@example.com", true⟩
        "new@example.com").inst.email_active = true ∧
    (emailUpdate ⟨[⟨1, "alice5", "h", "13812345678", "old@example.com", true⟩], 2⟩
        ⟨1, "alice5", "h", "13812345678", "old@example.com", true⟩
        "new@example.com").db.users =
      [⟨1, "alice5", "h", "13812345678", "new@example.com", true⟩] ∧
    true ≠ false := by
  exact ⟨by decide, by decide, by decide⟩

/-- C8 amended: emailUpdate sets the email field to the new address on the
instance, persists it (the persisted store is exactly the save of the
updated instance, computed before the mailer is involved), then enqueues the
verification-email send as a fire-and-forget asynchronous task whose outcome
cannot affect the already-computed persisted state; the email-verified flag
is left unchanged rather than being marked unverified. -/
theorem c8_email_update_sets_persists_enqueues (db : DB) (u : UserRow)
    (newEmail : String) :
    (emailUpdate db u newEmail).inst.email = newEmail ∧
    (emailUpdate db u newEmail).inst.email_active = u.email_active ∧
    (emailUpdate db u newEmail).db = saveUser db ((emailUpdate db u newEmail).inst) ∧
    (emailUpdate db u newEmail).outbox =
      [⟨newEmail, generate_verify_email_url ((emailUpdate db u newEmail).inst)⟩] :=
  ⟨rfl, rfl, rfl, rfl⟩
